import Mathlib

/-!
# Option resolution of gps-usb-serial-reader

Shallow embedding of the two option-handling sites of the repository:

* `pkg/controller/options.go` : `Options`, the flag defaults declared in `ParseOptions`,
  `SanitizeOptions` and `ValidateOptions`;
* `cmd/app/options.go` : `Options`, the auto-detect step at the end of `parseOptions`
  and `checkOptionSanity`.

Conventions of the embedding.

* The Go structs hold pointers to flag values; every pointer is set by `flag.Bool`,
  `flag.Int` or `flag.String` before use, so a configuration is modelled as the record
  of the pointed-to values.
* Go `int` values are only compared with constants, never computed with, so they are
  modelled as `Int`; every machine integer is an `Int`.
* The package-level variable `opts` of the controller is passed explicitly.
* `runtime.GOOS` is passed explicitly as the string `goos`.
* A Go `error` is modelled as `Option String`: `none` is `nil`, `some msg` is
  `errors.New(msg)`.
* The `log.Println` warning of `SanitizeOptions` writes to the log only and is not part
  of the configuration; it is left out.
-/

namespace controller

/-- The `Options` struct of `pkg/controller/options.go` (lines 11-33). -/
structure Options where
  AutoDetect : Bool
  BaudRate : Int
  CalculateBearing : Bool
  CalculateSignalStrength : Bool
  CalculateSpeedInKnots : Bool
  CalculateSpeedInKPH : Bool
  CalculateSpeedInMPH : Bool
  Daemon : Bool
  Help : Bool
  PlotInterval : Int
  PrintGPSCoordsToCLI : Bool
  PrintNMEAToCLI : Bool
  SerialPort : Int
  Silent : Bool
  Timeout : Int
  TimezoneLocal : Bool
  Verbose : Bool
  WriteCSVFilePath : String
  WriteGPSCoordsFilePath : String
  WriteKMLFilePath : String
  WriteNMEAFilePath : String
  deriving DecidableEq

/-- The flag defaults declared in `ParseOptions` (lines 44-64): the configuration
`flag.Parse` leaves when the command line sets no switch. -/
def defaultOptions : Options where
  AutoDetect := true
  BaudRate := -1
  CalculateBearing := false
  CalculateSignalStrength := false
  CalculateSpeedInKnots := false
  CalculateSpeedInKPH := false
  CalculateSpeedInMPH := false
  Daemon := false
  Help := false
  PlotInterval := 30
  PrintGPSCoordsToCLI := false
  PrintNMEAToCLI := false
  SerialPort := -1
  Silent := false
  Timeout := 60
  TimezoneLocal := false
  Verbose := false
  WriteCSVFilePath := ""
  WriteGPSCoordsFilePath := ""
  WriteKMLFilePath := ""
  WriteNMEAFilePath := ""

/-- `SanitizeOptions` (lines 77-88): the two in-place updates, in source order. -/
def SanitizeOptions (opts : Options) : Options :=
  let opts :=
    if opts.AutoDetect = true ∧ (opts.BaudRate > -1 ∨ opts.SerialPort > -1) then
      { opts with AutoDetect := false }
    else opts
  if opts.PrintGPSCoordsToCLI = false ∧ opts.PrintNMEAToCLI = false
      ∧ opts.WriteCSVFilePath = "" ∧ opts.WriteGPSCoordsFilePath = ""
      ∧ opts.WriteKMLFilePath = "" ∧ opts.WriteNMEAFilePath = "" then
    { opts with PrintGPSCoordsToCLI := true }
  else opts

/-- `ValidateOptions` (lines 90-120): seven guarded early returns, then `nil`. -/
def ValidateOptions (goos : String) (opts : Options) : Option String :=
  if goos = "windows" ∧ opts.AutoDetect = false
      ∧ (opts.SerialPort ≤ 0 ∨ opts.SerialPort > 256) then
    some "COM serial ports should be between 0-255"
  else if opts.AutoDetect = false ∧ opts.SerialPort < 0 then
    some "serial port must be valid"
  else if opts.AutoDetect = false ∧ opts.BaudRate ≤ 0 then
    some "baud rate must be valid"
  else if opts.Silent = true ∧ opts.Verbose = true then
    some "silent and verbose flags can't both be set"
  else if opts.Silent = true
      ∧ (opts.PrintNMEAToCLI = true ∨ opts.PrintGPSCoordsToCLI = true) then
    some "can't be silent and paired with a flag that increases verbosity"
  else if opts.Timeout < 0 then
    some "timeout cannot be negative"
  else if opts.PlotInterval ≤ 0 then
    some "plot interval cannot be less than 0"
  else none

/-- The reason string returned at the k-th early return of `ValidateOptions`. -/
def ruleError : Nat → String
  | 1 => "COM serial ports should be between 0-255"
  | 2 => "serial port must be valid"
  | 3 => "baud rate must be valid"
  | 4 => "silent and verbose flags can't both be set"
  | 5 => "can't be silent and paired with a flag that increases verbosity"
  | 6 => "timeout cannot be negative"
  | 7 => "plot interval cannot be less than 0"
  | _ => ""

/-- The condition of validator rule k, following the rule list of the specification:
1 Windows port range, 2 manual port below 0, 3 manual baud not positive, 4 silent with
verbose, 5 silent with a CLI-print flag, 6 negative timeout, 7 plot interval not
positive. -/
def ruleFires (goos : String) (o : Options) : Nat → Bool
  | 1 => decide (goos = "windows" ∧ o.AutoDetect = false
            ∧ ¬ (0 < o.SerialPort ∧ o.SerialPort ≤ 256))
  | 2 => decide (o.AutoDetect = false ∧ o.SerialPort < 0)
  | 3 => decide (o.AutoDetect = false ∧ o.BaudRate ≤ 0)
  | 4 => decide (o.Silent = true ∧ o.Verbose = true)
  | 5 => decide (o.Silent = true
            ∧ (o.PrintGPSCoordsToCLI = true ∨ o.PrintNMEAToCLI = true))
  | 6 => decide (o.Timeout < 0)
  | 7 => decide (o.PlotInterval ≤ 0)
  | _ => false

/-- The specification's validator: the reason of the first rule, in the order 1..7,
whose condition holds; `none` when no rule fires. -/
def firstViolatedRule (goos : String) (o : Options) : Option String :=
  ([1, 2, 3, 4, 5, 6, 7].find? (ruleFires goos o)).map ruleError

/-- An effective output is active: a print-to-console flag is set or one of the four
write paths is non-empty. -/
def hasEffectiveOutput (o : Options) : Prop :=
  o.PrintGPSCoordsToCLI = true ∨ o.PrintNMEAToCLI = true
    ∨ o.WriteCSVFilePath ≠ "" ∨ o.WriteGPSCoordsFilePath ≠ ""
    ∨ o.WriteKMLFilePath ≠ "" ∨ o.WriteNMEAFilePath ≠ ""

/-- `ValidateOptions` as a transition of the package variable `opts`: the body of
lines 90-120 reads the flag values and assigns none of them, so the variable holds
after the call what it held before, next to the returned error. -/
def ValidateOptionsRun (goos : String) (opts : Options) : Options × Option String :=
  (opts, ValidateOptions goos opts)

end controller

namespace app

/-- The `Options` struct of `cmd/app/options.go` (lines 10-26). -/
structure Options where
  AutoDetect : Bool
  BaudRate : Int
  Daemon : Bool
  Help : Bool
  PlotInterval : Int
  PrintGPSCoordsToCLI : Bool
  PrintNMEAToCLI : Bool
  SerialPort : Int
  Silent : Bool
  Timeout : Int
  Verbose : Bool
  WriteCSVFilePath : String
  WriteGPSCoordsFilePath : String
  WriteKMLFilePath : String
  WriteNMEAFilePath : String
  deriving DecidableEq

/-- The flag defaults declared in `parseOptions` (lines 31-45). -/
def defaultOptions : Options where
  AutoDetect := true
  BaudRate := -1
  Daemon := false
  Help := false
  PlotInterval := 30
  PrintGPSCoordsToCLI := false
  PrintNMEAToCLI := false
  SerialPort := -1
  Silent := false
  Timeout := 60
  Verbose := false
  WriteCSVFilePath := ""
  WriteGPSCoordsFilePath := ""
  WriteKMLFilePath := ""
  WriteNMEAFilePath := ""

/-- `parseOptions` (lines 28-54) after `flag.Parse`: `o` holds the parsed flag values,
and the only further step is the auto-detect update of lines 49-51. -/
def parseOptions (o : Options) : Options :=
  if o.AutoDetect = true ∧ (o.BaudRate > -1 ∧ o.SerialPort > -1) then
    { o with AutoDetect := false }
  else o

/-- `checkOptionSanity` (lines 63-93): seven guarded early returns, then `nil`. -/
def checkOptionSanity (goos : String) (o : Options) : Option String :=
  if goos = "windows" ∧ o.AutoDetect = false
      ∧ (o.SerialPort ≤ 0 ∨ o.SerialPort > 256) then
    some "COM serial ports should be between 0-255"
  else if o.AutoDetect = false ∧ o.SerialPort < 0 then
    some "serial port cannot be negative"
  else if o.AutoDetect = false ∧ o.BaudRate ≤ 0 then
    some "baud rate cannot be less than 0"
  else if o.Silent = true ∧ o.Verbose = true then
    some "Silent and Verbose flags cannot both be set"
  else if o.Silent = true
      ∧ (o.PrintNMEAToCLI = true ∨ o.PrintGPSCoordsToCLI = true) then
    some "can't be silent and paired with a flag that increases standard out verbosity"
  else if o.Timeout < 0 then
    some "timeout cannot be negative"
  else if o.PlotInterval ≤ 0 then
    some "plot interval cannot be less than 0"
  else none

/-- The reason string returned at the k-th early return of `checkOptionSanity`. -/
def ruleError : Nat → String
  | 1 => "COM serial ports should be between 0-255"
  | 2 => "serial port cannot be negative"
  | 3 => "baud rate cannot be less than 0"
  | 4 => "Silent and Verbose flags cannot both be set"
  | 5 => "can't be silent and paired with a flag that increases standard out verbosity"
  | 6 => "timeout cannot be negative"
  | 7 => "plot interval cannot be less than 0"
  | _ => ""

/-- An effective output is active: a print-to-console flag is set or one of the four
write paths is non-empty. -/
def hasEffectiveOutput (o : Options) : Prop :=
  o.PrintGPSCoordsToCLI = true ∨ o.PrintNMEAToCLI = true
    ∨ o.WriteCSVFilePath ≠ "" ∨ o.WriteGPSCoordsFilePath ≠ ""
    ∨ o.WriteKMLFilePath ≠ "" ∨ o.WriteNMEAFilePath ≠ ""

end app

/-! ## Validation order -/

/-- The seven reason strings are pairwise distinct, so a returned reason identifies
its rule. -/
theorem controller.ruleError_injOn (j k : Nat) (hj : 1 ≤ j ∧ j ≤ 7) (hk : 1 ≤ k ∧ k ≤ 7)
    (h : controller.ruleError j = controller.ruleError k) : j = k := by
  obtain ⟨hj1, hj7⟩ := hj
  obtain ⟨hk1, hk7⟩ := hk
  interval_cases j <;> interval_cases k <;> first | rfl | (exfalso; revert h; decide)

/-- The early returns of `ValidateOptions` are guarded by the seven rule conditions, in
rule order. -/
theorem controller.ValidateOptions_eq_cascade (goos : String) (o : controller.Options) :
    controller.ValidateOptions goos o =
      if controller.ruleFires goos o 1 = true then some (controller.ruleError 1)
      else if controller.ruleFires goos o 2 = true then some (controller.ruleError 2)
      else if controller.ruleFires goos o 3 = true then some (controller.ruleError 3)
      else if controller.ruleFires goos o 4 = true then some (controller.ruleError 4)
      else if controller.ruleFires goos o 5 = true then some (controller.ruleError 5)
      else if controller.ruleFires goos o 6 = true then some (controller.ruleError 6)
      else if controller.ruleFires goos o 7 = true then some (controller.ruleError 7)
      else none := by
  have h1 : (goos = "windows" ∧ o.AutoDetect = false
        ∧ ¬ (0 < o.SerialPort ∧ o.SerialPort ≤ 256))
      ↔ (goos = "windows" ∧ o.AutoDetect = false
        ∧ (o.SerialPort ≤ 0 ∨ o.SerialPort > 256)) := by
    constructor
    · rintro ⟨hw, ha, hp⟩
      exact ⟨hw, ha, by omega⟩
    · rintro ⟨hw, ha, hp⟩
      exact ⟨hw, ha, by omega⟩
  have h5 : (o.Silent = true ∧ (o.PrintGPSCoordsToCLI = true ∨ o.PrintNMEAToCLI = true))
      ↔ (o.Silent = true ∧ (o.PrintNMEAToCLI = true ∨ o.PrintGPSCoordsToCLI = true)) := by
    rw [or_comm]
  simp only [controller.ruleFires, controller.ruleError, decide_eq_true_eq, h1, h5]
  rfl

/-- C1: for every platform and configuration, `ValidateOptions` returns the reason of
the first rule, in the fixed order 1..7, whose condition holds, and it returns `nil`
exactly when none of the seven conditions holds. -/
theorem controller.ValidateOptions_first_rule (goos : String) (o : controller.Options) :
    controller.ValidateOptions goos o = controller.firstViolatedRule goos o
    ∧ (controller.ValidateOptions goos o = none
        ↔ [1, 2, 3, 4, 5, 6, 7].all (fun k => !controller.ruleFires goos o k) = true) := by
  rw [controller.ValidateOptions_eq_cascade]
  unfold controller.firstViolatedRule
  simp only [List.find?, List.all_cons, List.all_nil]
  generalize controller.ruleFires goos o 1 = b1
  generalize controller.ruleFires goos o 2 = b2
  generalize controller.ruleFires goos o 3 = b3
  generalize controller.ruleFires goos o 4 = b4
  generalize controller.ruleFires goos o 5 = b5
  generalize controller.ruleFires goos o 6 = b6
  generalize controller.ruleFires goos o 7 = b7
  cases b1 <;> cases b2 <;> cases b3 <;> cases b4 <;> cases b5 <;> cases b6 <;> cases b7 <;>
    simp

/-- C2: whenever `ValidateOptions` returns `nil`, `Silent` and `Verbose` are not both
set, and `Silent` is not set together with `PrintGPSCoordsToCLI` or `PrintNMEAToCLI`. -/
theorem controller.ValidateOptions_nil_exclusive (goos : String) (o : controller.Options)
    (h : controller.ValidateOptions goos o = none) :
    ¬ (o.Silent = true ∧ o.Verbose = true)
    ∧ ¬ (o.Silent = true ∧ (o.PrintGPSCoordsToCLI = true ∨ o.PrintNMEAToCLI = true)) := by
  unfold controller.ValidateOptions at h
  split_ifs at h with h1 h2 h3 h4 h5 h6 h7
  exact ⟨h4, fun hs => h5 ⟨hs.1, hs.2.symm⟩⟩

/-- Witness for C2: a silent configuration that writes to a CSV file is accepted on
Linux and satisfies the exclusion. -/
theorem controller.ValidateOptions_nil_exclusive_witness :
    controller.ValidateOptions "linux"
        { controller.defaultOptions with Silent := true, WriteCSVFilePath := "out.csv" } = none
    ∧ ¬ (({ controller.defaultOptions with
            Silent := true, WriteCSVFilePath := "out.csv" } : controller.Options).Silent = true
        ∧ ({ controller.defaultOptions with
            Silent := true, WriteCSVFilePath := "out.csv" } : controller.Options).Verbose = true) :=
  ⟨by decide,
   (controller.ValidateOptions_nil_exclusive "linux"
     { controller.defaultOptions with Silent := true, WriteCSVFilePath := "out.csv" }
     (by decide)).1⟩

/-! ## Normalisation -/

/-- C3: `SanitizeOptions` is idempotent; a second application changes no field. -/
theorem controller.SanitizeOptions_idempotent (c : controller.Options) :
    controller.SanitizeOptions (controller.SanitizeOptions c) = controller.SanitizeOptions c := by
  by_cases h1 : c.AutoDetect = true ∧ (c.BaudRate > -1 ∨ c.SerialPort > -1) <;>
  by_cases h2 : c.PrintGPSCoordsToCLI = false ∧ c.PrintNMEAToCLI = false
      ∧ c.WriteCSVFilePath = "" ∧ c.WriteGPSCoordsFilePath = ""
      ∧ c.WriteKMLFilePath = "" ∧ c.WriteNMEAFilePath = "" <;>
  simp [controller.SanitizeOptions, h1, h2]

/-- C4: after `SanitizeOptions` an effective output is active, and when no print flag
is set and the four write paths are empty beforehand, `PrintGPSCoordsToCLI` is true
afterwards. -/
theorem controller.SanitizeOptions_effective_output (c : controller.Options) :
    controller.hasEffectiveOutput (controller.SanitizeOptions c)
    ∧ (c.PrintGPSCoordsToCLI = false ∧ c.PrintNMEAToCLI = false
        ∧ c.WriteCSVFilePath = "" ∧ c.WriteGPSCoordsFilePath = ""
        ∧ c.WriteKMLFilePath = "" ∧ c.WriteNMEAFilePath = ""
        → (controller.SanitizeOptions c).PrintGPSCoordsToCLI = true) := by
  by_cases h1 : c.AutoDetect = true ∧ (c.BaudRate > -1 ∨ c.SerialPort > -1) <;>
  by_cases h2 : c.PrintGPSCoordsToCLI = false ∧ c.PrintNMEAToCLI = false
      ∧ c.WriteCSVFilePath = "" ∧ c.WriteGPSCoordsFilePath = ""
      ∧ c.WriteKMLFilePath = "" ∧ c.WriteNMEAFilePath = "" <;>
  simp only [controller.SanitizeOptions, controller.hasEffectiveOutput, h1, h2, if_true,
    if_false, true_or, true_and, false_implies, and_true, and_self, not_false_eq_true,
    implies_true]
  all_goals
    simp only [not_and_or, Bool.not_eq_false, ← ne_eq] at h2
    exact h2

/-- `SanitizeOptions` clears `AutoDetect` exactly under the guard of line 79. -/
theorem controller.SanitizeOptions_AutoDetect (c : controller.Options) :
    (controller.SanitizeOptions c).AutoDetect
      = if c.AutoDetect = true ∧ (c.BaudRate > -1 ∨ c.SerialPort > -1) then false
        else c.AutoDetect := by
  simp only [controller.SanitizeOptions]
  split_ifs <;> rfl

/-- `SanitizeOptions` leaves `SerialPort` as it was. -/
theorem controller.SanitizeOptions_SerialPort (c : controller.Options) :
    (controller.SanitizeOptions c).SerialPort = c.SerialPort := by
  simp only [controller.SanitizeOptions]
  split_ifs <;> rfl

/-- `SanitizeOptions` leaves `BaudRate` as it was. -/
theorem controller.SanitizeOptions_BaudRate (c : controller.Options) :
    (controller.SanitizeOptions c).BaudRate = c.BaudRate := by
  simp only [controller.SanitizeOptions]
  split_ifs <;> rfl

/-! ## Auto-detection against manual parameters -/

/-- C5: when `SanitizeOptions` followed by `ValidateOptions` succeeds, exactly one of
"`AutoDetect` is set" and "`SerialPort >= 0` and `BaudRate > 0`" holds of the final
configuration: never both, and never `AutoDetect` off with a missing or invalid port
or baud rate. -/
theorem controller.accepted_autodetect_xor_manual (goos : String) (raw : controller.Options)
    (h : controller.ValidateOptions goos (controller.SanitizeOptions raw) = none) :
    Xor' ((controller.SanitizeOptions raw).AutoDetect = true)
        (0 ≤ (controller.SanitizeOptions raw).SerialPort
          ∧ 0 < (controller.SanitizeOptions raw).BaudRate)
    ∧ ¬ ((controller.SanitizeOptions raw).AutoDetect = true
          ∧ 0 ≤ (controller.SanitizeOptions raw).SerialPort
          ∧ 0 < (controller.SanitizeOptions raw).BaudRate)
    ∧ ¬ ((controller.SanitizeOptions raw).AutoDetect = false
          ∧ ((controller.SanitizeOptions raw).SerialPort < 0
              ∨ (controller.SanitizeOptions raw).BaudRate ≤ 0)) := by
  have hA : (controller.SanitizeOptions raw).AutoDetect = true
      → (controller.SanitizeOptions raw).SerialPort ≤ -1
        ∧ (controller.SanitizeOptions raw).BaudRate ≤ -1 := by
    rw [controller.SanitizeOptions_AutoDetect, controller.SanitizeOptions_SerialPort,
      controller.SanitizeOptions_BaudRate]
    split_ifs with h1
    · intro ha
      exact absurd ha (by decide)
    · intro ha
      constructor <;> by_contra hc <;> exact h1 ⟨ha, by omega⟩
  have hM : (controller.SanitizeOptions raw).AutoDetect = false
      → 0 ≤ (controller.SanitizeOptions raw).SerialPort
        ∧ 0 < (controller.SanitizeOptions raw).BaudRate := by
    intro ha
    unfold controller.ValidateOptions at h
    split_ifs at h with h1 h2 h3
    constructor
    · by_contra hc
      exact h2 ⟨ha, by omega⟩
    · by_contra hc
      exact h3 ⟨ha, by omega⟩
  cases ha : (controller.SanitizeOptions raw).AutoDetect
  · obtain ⟨hp, hb⟩ := hM ha
    refine ⟨Or.inr ⟨⟨hp, hb⟩, by simp⟩, by simp, ?_⟩
    rintro ⟨-, hc⟩
    omega
  · obtain ⟨hp, hb⟩ := hA ha
    refine ⟨Or.inl ⟨rfl, ?_⟩, ?_, by simp⟩
    · rintro ⟨hc, -⟩
      omega
    · rintro ⟨-, hc, -⟩
      omega

/-- Witness for C5: port 3 at 9600 baud is accepted on Windows with `AutoDetect`
cleared and both manual parameters valid. -/
theorem controller.accepted_autodetect_xor_manual_witness :
    controller.ValidateOptions "windows" (controller.SanitizeOptions
        { controller.defaultOptions with SerialPort := 3, BaudRate := 9600 }) = none
    ∧ (controller.SanitizeOptions
        { controller.defaultOptions with SerialPort := 3, BaudRate := 9600 }).AutoDetect = false
    ∧ Xor' ((controller.SanitizeOptions
          { controller.defaultOptions with SerialPort := 3, BaudRate := 9600 }).AutoDetect = true)
        (0 ≤ (controller.SanitizeOptions
            { controller.defaultOptions with SerialPort := 3, BaudRate := 9600 }).SerialPort
          ∧ 0 < (controller.SanitizeOptions
            { controller.defaultOptions with SerialPort := 3, BaudRate := 9600 }).BaudRate) :=
  ⟨by decide, by decide,
   (controller.accepted_autodetect_xor_manual "windows"
     { controller.defaultOptions with SerialPort := 3, BaudRate := 9600 } (by decide)).1⟩

/-- C6 (as stated, refuted): under `SanitizeOptions` the suppression is not conjunctive.
With port 3, baud rate unset and `autodetect` at its default, `AutoDetect` is cleared,
so it is false that `AutoDetect` stays set there and that it is cleared only when both
`BaudRate >= 0` and `SerialPort >= 0`. -/
theorem controller.SanitizeOptions_not_conjunctive :
    ¬ ((controller.SanitizeOptions
          { controller.defaultOptions with BaudRate := 9600, SerialPort := 3 }).AutoDetect = false
      ∧ (controller.SanitizeOptions
          { controller.defaultOptions with SerialPort := 3 }).AutoDetect = true
      ∧ ∀ o : controller.Options, o.AutoDetect = true
          → (controller.SanitizeOptions o).AutoDetect = false
          → 0 ≤ o.BaudRate ∧ 0 ≤ o.SerialPort) := by
  rintro ⟨-, h, -⟩
  revert h
  decide

/-- C6 (amended): under `SanitizeOptions` the suppression is disjunctive. With baud
rate 9600 and port 3 `AutoDetect` is cleared; with port 3 and the baud rate unset it is
cleared as well; in general a set `AutoDetect` is cleared exactly when `BaudRate >= 0`
or `SerialPort >= 0`. -/
theorem controller.SanitizeOptions_disjunctive :
    (controller.SanitizeOptions
        { controller.defaultOptions with BaudRate := 9600, SerialPort := 3 }).AutoDetect = false
    ∧ (controller.SanitizeOptions
        { controller.defaultOptions with SerialPort := 3 }).AutoDetect = false
    ∧ ∀ o : controller.Options,
        (o.AutoDetect = true ∧ (controller.SanitizeOptions o).AutoDetect = false)
          ↔ (o.AutoDetect = true ∧ (0 ≤ o.BaudRate ∨ 0 ≤ o.SerialPort)) := by
  refine ⟨by decide, by decide, fun o => ?_⟩
  rw [controller.SanitizeOptions_AutoDetect]
  constructor
  · rintro ⟨ha, hs⟩
    refine ⟨ha, ?_⟩
    split_ifs at hs with h1
    · obtain ⟨-, hb | hp⟩ := h1
      · exact Or.inl (by omega)
      · exact Or.inr (by omega)
    · rw [ha] at hs
      exact absurd hs (by decide)
  · rintro ⟨ha, hbp⟩
    refine ⟨ha, ?_⟩
    have h1 : o.AutoDetect = true ∧ (o.BaudRate > -1 ∨ o.SerialPort > -1) := by
      refine ⟨ha, ?_⟩
      rcases hbp with hb | hp
      · exact Or.inl (by omega)
      · exact Or.inr (by omega)
    rw [if_pos h1]

/-- C7: on inputs that agree on `AutoDetect`, `BaudRate` and `SerialPort`, the
auto-detect step of cmd/app `parseOptions` and that of controller `SanitizeOptions`
give different `AutoDetect` values exactly when the incoming `AutoDetect` is set and
exactly one of `BaudRate`, `SerialPort` is greater than -1; there cmd/app leaves
`AutoDetect` set and the controller clears it. -/
theorem controller.SanitizeOptions_vs_app_parseOptions (a : app.Options)
    (c : controller.Options) (hA : a.AutoDetect = c.AutoDetect)
    (hB : a.BaudRate = c.BaudRate) (hP : a.SerialPort = c.SerialPort) :
    ((app.parseOptions a).AutoDetect ≠ (controller.SanitizeOptions c).AutoDetect
        ↔ (c.AutoDetect = true ∧ Xor' (c.BaudRate > -1) (c.SerialPort > -1)))
    ∧ ((c.AutoDetect = true ∧ Xor' (c.BaudRate > -1) (c.SerialPort > -1))
        → (app.parseOptions a).AutoDetect = true
          ∧ (controller.SanitizeOptions c).AutoDetect = false)
    ∧ (¬ (c.AutoDetect = true ∧ Xor' (c.BaudRate > -1) (c.SerialPort > -1))
        → (app.parseOptions a).AutoDetect = (controller.SanitizeOptions c).AutoDetect) := by
  have happ : (app.parseOptions a).AutoDetect
      = if c.AutoDetect = true ∧ (c.BaudRate > -1 ∧ c.SerialPort > -1) then false
        else c.AutoDetect := by
    simp only [app.parseOptions, hA, hB, hP]
    split_ifs
    · rfl
    · exact hA
  rw [happ, controller.SanitizeOptions_AutoDetect]
  unfold Xor'
  cases hc : c.AutoDetect
  · simp
  · by_cases hb : c.BaudRate > -1 <;> by_cases hp : c.SerialPort > -1 <;> simp [hb, hp]

/-- Witness for C7: with only port 3 given, cmd/app keeps `AutoDetect` and the
controller clears it. -/
theorem controller.SanitizeOptions_vs_app_parseOptions_witness :
    (app.parseOptions { app.defaultOptions with SerialPort := 3 }).AutoDetect = true
    ∧ (controller.SanitizeOptions
        { controller.defaultOptions with SerialPort := 3 }).AutoDetect = false :=
  (controller.SanitizeOptions_vs_app_parseOptions
    { app.defaultOptions with SerialPort := 3 }
    { controller.defaultOptions with SerialPort := 3 } rfl rfl rfl).2.1
    ⟨rfl, Or.inr ⟨by decide, by decide⟩⟩

/-! ## Rejections and boundary values -/

/-- C8: with `silent`, `verbose` and port -5 given and every other option at its
default, `SanitizeOptions` followed by `ValidateOptions` reports the silent/verbose
conflict (rule 4) on every platform, and neither serial-port reason. -/
theorem controller.silent_verbose_reported_first (goos : String) :
    controller.ValidateOptions goos (controller.SanitizeOptions
        { controller.defaultOptions with Silent := true, Verbose := true, SerialPort := -5 })
      = some (controller.ruleError 4)
    ∧ controller.ValidateOptions goos (controller.SanitizeOptions
        { controller.defaultOptions with Silent := true, Verbose := true, SerialPort := -5 })
      ≠ some (controller.ruleError 1)
    ∧ controller.ValidateOptions goos (controller.SanitizeOptions
        { controller.defaultOptions with Silent := true, Verbose := true, SerialPort := -5 })
      ≠ some (controller.ruleError 2) := by
  have hs : controller.SanitizeOptions
      { controller.defaultOptions with Silent := true, Verbose := true, SerialPort := -5 }
      = { controller.defaultOptions with
            Silent := true, Verbose := true, SerialPort := -5, PrintGPSCoordsToCLI := true } := by
    decide
  have hv : controller.ValidateOptions goos
      { controller.defaultOptions with
          Silent := true, Verbose := true, SerialPort := -5, PrintGPSCoordsToCLI := true }
      = some (controller.ruleError 4) := by
    simp [controller.ValidateOptions, controller.defaultOptions, controller.ruleError]
  rw [hs, hv]
  exact ⟨rfl, by decide, by decide⟩

/-- C9: the configuration with `Timeout = t`, `PlotInterval = i` and every other option
at its default passes `SanitizeOptions` followed by `ValidateOptions`, on every
platform, exactly when `t >= 0` and `i > 0`; timeout 0 and interval 1 pass, timeout -1
and interval 0 fail. -/
theorem controller.timeout_interval_boundary (goos : String) :
    (∀ t i : Int,
      controller.ValidateOptions goos (controller.SanitizeOptions
          { controller.defaultOptions with Timeout := t, PlotInterval := i }) = none
        ↔ (0 ≤ t ∧ 0 < i))
    ∧ controller.ValidateOptions goos (controller.SanitizeOptions
          { controller.defaultOptions with Timeout := 0 }) = none
    ∧ controller.ValidateOptions goos (controller.SanitizeOptions
          { controller.defaultOptions with PlotInterval := 1 }) = none
    ∧ controller.ValidateOptions goos (controller.SanitizeOptions
          { controller.defaultOptions with Timeout := -1 }) = some (controller.ruleError 6)
    ∧ controller.ValidateOptions goos (controller.SanitizeOptions
          { controller.defaultOptions with PlotInterval := 0 }) = some (controller.ruleError 7) := by
  have hs : ∀ t i : Int, controller.SanitizeOptions
      { controller.defaultOptions with Timeout := t, PlotInterval := i }
      = { controller.defaultOptions with
            Timeout := t, PlotInterval := i, PrintGPSCoordsToCLI := true } := by
    intro t i
    simp [controller.SanitizeOptions, controller.defaultOptions]
  have hv : ∀ t i : Int, controller.ValidateOptions goos
      { controller.defaultOptions with
          Timeout := t, PlotInterval := i, PrintGPSCoordsToCLI := true }
      = if t < 0 then some (controller.ruleError 6)
        else if i ≤ 0 then some (controller.ruleError 7) else none := by
    intro t i
    simp [controller.ValidateOptions, controller.defaultOptions, controller.ruleError]
  refine ⟨fun t i => ?_, ?_, ?_, ?_, ?_⟩
  · rw [hs, hv]
    split_ifs with h1 h2
    · simp only [reduceCtorEq, false_iff, not_and]
      omega
    · simp only [reduceCtorEq, false_iff, not_and]
      omega
    · simp only [true_iff]
      omega
  · exact (hs 0 30).symm ▸ (hv 0 30).trans (by decide)
  · exact (hs 60 1).symm ▸ (hv 60 1).trans (by decide)
  · exact (hs (-1) 30).symm ▸ (hv (-1) 30).trans (by decide)
  · exact (hs 60 0).symm ▸ (hv 60 0).trans (by decide)

/-- C10 (as stated, refuted): on Windows, `autodetect=false` with port 256 and every
other option at its default does not pass; the baud rate is still unset, so the
manual-baud rule (rule 3) rejects it. -/
theorem controller.windows_port_256_default_baud_rejected :
    controller.ValidateOptions "windows" (controller.SanitizeOptions
        { controller.defaultOptions with AutoDetect := false, SerialPort := 256 })
      = some "baud rate must be valid" := by
  decide

/-- C10 (amended): on Windows, with `autodetect=false` and the other options at their
defaults, port 256 is rejected by the manual-baud rule (rule 3), not by the port-range
rule, and port 257 is rejected by the port-range rule (rule 1); once a baud rate `b` is
given as well, port 256 passes exactly when `b > 0`, and port 257 still fails with the
port-range reason. -/
theorem controller.windows_port_boundary :
    controller.ValidateOptions "windows" (controller.SanitizeOptions
        { controller.defaultOptions with AutoDetect := false, SerialPort := 256 })
      = some (controller.ruleError 3)
    ∧ controller.ValidateOptions "windows" (controller.SanitizeOptions
        { controller.defaultOptions with AutoDetect := false, SerialPort := 257 })
      = some (controller.ruleError 1)
    ∧ ∀ b : Int,
        (controller.ValidateOptions "windows" (controller.SanitizeOptions
            { controller.defaultOptions with
                AutoDetect := false, SerialPort := 256, BaudRate := b }) = none
          ↔ 0 < b)
        ∧ controller.ValidateOptions "windows" (controller.SanitizeOptions
            { controller.defaultOptions with
                AutoDetect := false, SerialPort := 257, BaudRate := b })
          = some (controller.ruleError 1) := by
  refine ⟨by decide, by decide, fun b => ?_⟩
  have hs : ∀ p : Int, controller.SanitizeOptions
      { controller.defaultOptions with AutoDetect := false, SerialPort := p, BaudRate := b }
      = { controller.defaultOptions with
            AutoDetect := false, SerialPort := p, BaudRate := b,
            PrintGPSCoordsToCLI := true } := by
    intro p
    simp [controller.SanitizeOptions, controller.defaultOptions]
  rw [hs, hs]
  constructor
  · by_cases hb : b ≤ 0
    · simp [controller.ValidateOptions, controller.defaultOptions, hb]
    · simp [controller.ValidateOptions, controller.defaultOptions, hb]
      omega
  · simp [controller.ValidateOptions, controller.defaultOptions, controller.ruleError]

/-! ## The Windows port range -/

/-- C11: on Windows, `ValidateOptions` returns the port-range reason (rule 1) exactly
when `AutoDetect` is off and `SerialPort` is outside `(0, 256]`, so a configuration
accepted on Windows with `AutoDetect` off has `1 <= SerialPort <= 256`; on any other
platform the port-range reason is never returned. -/
theorem controller.windows_port_range_rule (o : controller.Options) :
    (controller.ValidateOptions "windows" o = some (controller.ruleError 1)
        ↔ (o.AutoDetect = false ∧ ¬ (0 < o.SerialPort ∧ o.SerialPort ≤ 256)))
    ∧ (controller.ValidateOptions "windows" o = none → o.AutoDetect = false
        → 1 ≤ o.SerialPort ∧ o.SerialPort ≤ 256)
    ∧ (∀ goos : String, goos ≠ "windows"
        → controller.ValidateOptions goos o ≠ some (controller.ruleError 1)) := by
  refine ⟨?_, ?_, ?_⟩
  · constructor
    · intro h
      unfold controller.ValidateOptions at h
      split_ifs at h with h1 h2 h3 h4 h5 h6 h7
      · exact ⟨h1.2.1, by omega⟩
      all_goals exact absurd h (by decide)
    · rintro ⟨ha, hp⟩
      have h1 : "windows" = "windows" ∧ o.AutoDetect = false
          ∧ (o.SerialPort ≤ 0 ∨ o.SerialPort > 256) := ⟨rfl, ha, by omega⟩
      unfold controller.ValidateOptions
      rw [if_pos h1]
      rfl
  · intro h ha
    unfold controller.ValidateOptions at h
    split_ifs at h with h1
    have hp : ¬ (o.SerialPort ≤ 0 ∨ o.SerialPort > 256) := fun hc => h1 ⟨rfl, ha, hc⟩
    omega
  · intro goos hg h
    unfold controller.ValidateOptions at h
    split_ifs at h with h1 h2 h3 h4 h5 h6 h7
    · exact hg h1.1
    all_goals exact absurd h (by decide)

/-- C14 (the code at its failing inputs): on Windows with `AutoDetect` off and a valid
baud rate, port 0 is answered with "COM serial ports should be between 0-255" although
0 lies in 0..255, and port 256 is accepted although it lies outside 0..255; both option
sites behave so. -/
theorem controller.windows_port_message_mismatch :
    controller.ValidateOptions "windows"
        { controller.defaultOptions with
            AutoDetect := false, BaudRate := 9600, SerialPort := 0, PrintGPSCoordsToCLI := true }
      = some "COM serial ports should be between 0-255"
    ∧ controller.ValidateOptions "windows"
        { controller.defaultOptions with
            AutoDetect := false, BaudRate := 9600, SerialPort := 256, PrintGPSCoordsToCLI := true }
      = none
    ∧ app.checkOptionSanity "windows"
        { app.defaultOptions with
            AutoDetect := false, BaudRate := 9600, SerialPort := 0, PrintGPSCoordsToCLI := true }
      = some "COM serial ports should be between 0-255"
    ∧ app.checkOptionSanity "windows"
        { app.defaultOptions with
            AutoDetect := false, BaudRate := 9600, SerialPort := 256, PrintGPSCoordsToCLI := true }
      = none := by
  decide

/-! ## Frame and dependence -/

/-- C12: `ValidateOptions` leaves the configuration as it was, and two configurations
that agree on `AutoDetect`, `SerialPort`, `BaudRate`, `Silent`, `Verbose`,
`PrintGPSCoordsToCLI`, `PrintNMEAToCLI`, `Timeout` and `PlotInterval` get the same
result on the same platform, whatever their other fields hold. -/
theorem controller.ValidateOptions_pure (goos : String) (o₁ o₂ : controller.Options)
    (h : o₁.AutoDetect = o₂.AutoDetect ∧ o₁.SerialPort = o₂.SerialPort
      ∧ o₁.BaudRate = o₂.BaudRate ∧ o₁.Silent = o₂.Silent ∧ o₁.Verbose = o₂.Verbose
      ∧ o₁.PrintGPSCoordsToCLI = o₂.PrintGPSCoordsToCLI
      ∧ o₁.PrintNMEAToCLI = o₂.PrintNMEAToCLI
      ∧ o₁.Timeout = o₂.Timeout ∧ o₁.PlotInterval = o₂.PlotInterval) :
    (controller.ValidateOptionsRun goos o₁).1 = o₁
    ∧ (controller.ValidateOptionsRun goos o₁).2 = (controller.ValidateOptionsRun goos o₂).2
    ∧ controller.ValidateOptions goos o₁ = controller.ValidateOptions goos o₂ := by
  obtain ⟨hA, hP, hB, hS, hV, hG, hN, hT, hI⟩ := h
  have hv : controller.ValidateOptions goos o₁ = controller.ValidateOptions goos o₂ := by
    simp only [controller.ValidateOptions, hA, hP, hB, hS, hV, hG, hN, hT, hI]
  exact ⟨rfl, hv, hv⟩

/-- Witness for C12: two configurations that differ in `Daemon`, `Help`, every
`Calculate*` flag, `TimezoneLocal` and the four write paths get the same result on
Windows. -/
theorem controller.ValidateOptions_pure_witness :
    controller.ValidateOptions "windows"
        { controller.defaultOptions with AutoDetect := false, SerialPort := 300 }
      = controller.ValidateOptions "windows"
        { controller.defaultOptions with
            AutoDetect := false, SerialPort := 300, Daemon := true, Help := true,
            CalculateBearing := true, CalculateSignalStrength := true,
            CalculateSpeedInKnots := true, CalculateSpeedInKPH := true,
            CalculateSpeedInMPH := true, TimezoneLocal := true,
            WriteCSVFilePath := "a.csv", WriteGPSCoordsFilePath := "a.gps",
            WriteKMLFilePath := "a.kml", WriteNMEAFilePath := "a.nmea" } :=
  (controller.ValidateOptions_pure "windows"
    { controller.defaultOptions with AutoDetect := false, SerialPort := 300 }
    { controller.defaultOptions with
        AutoDetect := false, SerialPort := 300, Daemon := true, Help := true,
        CalculateBearing := true, CalculateSignalStrength := true,
        CalculateSpeedInKnots := true, CalculateSpeedInKPH := true,
        CalculateSpeedInMPH := true, TimezoneLocal := true,
        WriteCSVFilePath := "a.csv", WriteGPSCoordsFilePath := "a.gps",
        WriteKMLFilePath := "a.kml", WriteNMEAFilePath := "a.nmea" }
    ⟨rfl, rfl, rfl, rfl, rfl, rfl, rfl, rfl, rfl⟩).2.2

/-- `SanitizeOptions` written as one record update: only `AutoDetect` and
`PrintGPSCoordsToCLI` receive a new value, each under its guard. -/
theorem controller.SanitizeOptions_eq (c : controller.Options) :
    controller.SanitizeOptions c =
      { c with
        AutoDetect :=
          if c.AutoDetect = true ∧ (c.BaudRate > -1 ∨ c.SerialPort > -1) then false
          else c.AutoDetect
        PrintGPSCoordsToCLI :=
          if c.PrintGPSCoordsToCLI = false ∧ c.PrintNMEAToCLI = false
              ∧ c.WriteCSVFilePath = "" ∧ c.WriteGPSCoordsFilePath = ""
              ∧ c.WriteKMLFilePath = "" ∧ c.WriteNMEAFilePath = "" then true
          else c.PrintGPSCoordsToCLI } := by
  by_cases h1 : c.AutoDetect = true ∧ (c.BaudRate > -1 ∨ c.SerialPort > -1) <;>
  by_cases h2 : c.PrintGPSCoordsToCLI = false ∧ c.PrintNMEAToCLI = false
      ∧ c.WriteCSVFilePath = "" ∧ c.WriteGPSCoordsFilePath = ""
      ∧ c.WriteKMLFilePath = "" ∧ c.WriteNMEAFilePath = "" <;>
  simp [controller.SanitizeOptions, h1, h2]

/-- C15: `SanitizeOptions` changes no field other than `AutoDetect` and
`PrintGPSCoordsToCLI`; it never turns `AutoDetect` from false to true and never turns
`PrintGPSCoordsToCLI` from true to false. -/
theorem controller.SanitizeOptions_frame (c : controller.Options) :
    controller.SanitizeOptions c =
        { c with
          AutoDetect := (controller.SanitizeOptions c).AutoDetect
          PrintGPSCoordsToCLI := (controller.SanitizeOptions c).PrintGPSCoordsToCLI }
    ∧ (c.AutoDetect = false → (controller.SanitizeOptions c).AutoDetect = false)
    ∧ (c.PrintGPSCoordsToCLI = true
        → (controller.SanitizeOptions c).PrintGPSCoordsToCLI = true) := by
  refine ⟨?_, ?_, ?_⟩
  · rw [controller.SanitizeOptions_eq]
  · intro ha
    rw [controller.SanitizeOptions_eq]
    simp [ha]
  · intro hp
    rw [controller.SanitizeOptions_eq]
    simp [hp]

/-! ## The two validators side by side -/

/-- The seven reason strings of `checkOptionSanity` are pairwise distinct. -/
theorem app.checkOptionSanity_reasons_distinct (j k : Nat) (hj : 1 ≤ j ∧ j ≤ 7) (hk : 1 ≤ k ∧ k ≤ 7)
    (h : app.ruleError j = app.ruleError k) : j = k := by
  obtain ⟨hj1, hj7⟩ := hj
  obtain ⟨hk1, hk7⟩ := hk
  interval_cases j <;> interval_cases k <;> first | rfl | (exfalso; revert h; decide)

/-- C16: on configurations that agree on the fields both validators read,
`checkOptionSanity` and `ValidateOptions` return `nil` together, and otherwise fail at
the same rule number k in 1..7, each with its own k-th reason. -/
theorem app.checkOptionSanity_same_rule (goos : String) (a : app.Options)
    (c : controller.Options)
    (h : a.AutoDetect = c.AutoDetect ∧ a.SerialPort = c.SerialPort
      ∧ a.BaudRate = c.BaudRate ∧ a.Silent = c.Silent ∧ a.Verbose = c.Verbose
      ∧ a.PrintGPSCoordsToCLI = c.PrintGPSCoordsToCLI
      ∧ a.PrintNMEAToCLI = c.PrintNMEAToCLI
      ∧ a.Timeout = c.Timeout ∧ a.PlotInterval = c.PlotInterval) :
    (app.checkOptionSanity goos a = none ↔ controller.ValidateOptions goos c = none)
    ∧ ((app.checkOptionSanity goos a = none ∧ controller.ValidateOptions goos c = none)
        ∨ ∃ k : Nat, 1 ≤ k ∧ k ≤ 7
            ∧ app.checkOptionSanity goos a = some (app.ruleError k)
            ∧ controller.ValidateOptions goos c = some (controller.ruleError k)) := by
  obtain ⟨hA, hP, hB, hS, hV, hG, hN, hT, hI⟩ := h
  have hd : (app.checkOptionSanity goos a = none ∧ controller.ValidateOptions goos c = none)
      ∨ ∃ k : Nat, 1 ≤ k ∧ k ≤ 7
          ∧ app.checkOptionSanity goos a = some (app.ruleError k)
          ∧ controller.ValidateOptions goos c = some (controller.ruleError k) := by
    simp only [app.checkOptionSanity, controller.ValidateOptions, hA, hP, hB, hS, hV, hG,
      hN, hT, hI]
    split_ifs
    · exact Or.inr ⟨1, by decide, by decide, rfl, rfl⟩
    · exact Or.inr ⟨2, by decide, by decide, rfl, rfl⟩
    · exact Or.inr ⟨3, by decide, by decide, rfl, rfl⟩
    · exact Or.inr ⟨4, by decide, by decide, rfl, rfl⟩
    · exact Or.inr ⟨5, by decide, by decide, rfl, rfl⟩
    · exact Or.inr ⟨6, by decide, by decide, rfl, rfl⟩
    · exact Or.inr ⟨7, by decide, by decide, rfl, rfl⟩
    · exact Or.inl ⟨rfl, rfl⟩
  refine ⟨?_, hd⟩
  rcases hd with ⟨h1, h2⟩ | ⟨k, -, -, h1, h2⟩
  · exact ⟨fun _ => h2, fun _ => h1⟩
  · rw [h1, h2]
    exact ⟨fun hc => absurd hc (by simp), fun hc => absurd hc (by simp)⟩

/-- Witness for C16: silent together with verbose fails at rule 4 in both validators,
with different reason texts. -/
theorem app.checkOptionSanity_same_rule_witness :
    (app.checkOptionSanity "linux"
        { app.defaultOptions with Silent := true, Verbose := true } = none
      ↔ controller.ValidateOptions "linux"
        { controller.defaultOptions with Silent := true, Verbose := true } = none)
    ∧ app.checkOptionSanity "linux"
        { app.defaultOptions with Silent := true, Verbose := true }
      = some "Silent and Verbose flags cannot both be set"
    ∧ controller.ValidateOptions "linux"
        { controller.defaultOptions with Silent := true, Verbose := true }
      = some "silent and verbose flags can't both be set" :=
  ⟨(app.checkOptionSanity_same_rule "linux"
      { app.defaultOptions with Silent := true, Verbose := true }
      { controller.defaultOptions with Silent := true, Verbose := true }
      ⟨rfl, rfl, rfl, rfl, rfl, rfl, rfl, rfl, rfl⟩).1,
   by decide, by decide⟩

/-! ## Normalisation followed by validation -/

/-- `ValidateOptions` returns `nil` exactly when each of its seven guards is false. -/
theorem controller.ValidateOptions_eq_none_iff (goos : String) (o : controller.Options) :
    controller.ValidateOptions goos o = none
      ↔ (¬ (goos = "windows" ∧ o.AutoDetect = false
              ∧ (o.SerialPort ≤ 0 ∨ o.SerialPort > 256))
          ∧ ¬ (o.AutoDetect = false ∧ o.SerialPort < 0)
          ∧ ¬ (o.AutoDetect = false ∧ o.BaudRate ≤ 0)
          ∧ ¬ (o.Silent = true ∧ o.Verbose = true)
          ∧ ¬ (o.Silent = true ∧ (o.PrintNMEAToCLI = true ∨ o.PrintGPSCoordsToCLI = true))
          ∧ ¬ (o.Timeout < 0)
          ∧ ¬ (o.PlotInterval ≤ 0)) := by
  unfold controller.ValidateOptions
  constructor
  · intro h
    split_ifs at h with h1 h2 h3 h4 h5 h6 h7
    exact ⟨h1, h2, h3, h4, h5, h6, h7⟩
  · rintro ⟨h1, h2, h3, h4, h5, h6, h7⟩
    rw [if_neg h1, if_neg h2, if_neg h3, if_neg h4, if_neg h5, if_neg h6, if_neg h7]

/-- An `Option` that is not `none` holds a value. -/
theorem controller.exists_error_of_ne_none (r : Option String) (h : r ≠ none) :
    ∃ msg, r = some msg := by
  cases r with
  | none => exact absurd rfl h
  | some msg => exact ⟨msg, rfl⟩

/-- C17: a raw configuration with `Silent` set and the four write paths empty is
rejected by `SanitizeOptions` followed by `ValidateOptions` on every platform; so an
accepted configuration with `Silent` set has a non-empty write path. -/
theorem controller.silent_needs_write_path (goos : String) (raw : controller.Options) :
    (raw.Silent = true ∧ raw.WriteCSVFilePath = "" ∧ raw.WriteGPSCoordsFilePath = ""
        ∧ raw.WriteKMLFilePath = "" ∧ raw.WriteNMEAFilePath = ""
      → ∃ msg, controller.ValidateOptions goos (controller.SanitizeOptions raw) = some msg)
    ∧ (controller.ValidateOptions goos (controller.SanitizeOptions raw) = none
      → (controller.SanitizeOptions raw).Silent = true
      → ((controller.SanitizeOptions raw).WriteCSVFilePath ≠ ""
          ∨ (controller.SanitizeOptions raw).WriteGPSCoordsFilePath ≠ ""
          ∨ (controller.SanitizeOptions raw).WriteKMLFilePath ≠ ""
          ∨ (controller.SanitizeOptions raw).WriteNMEAFilePath ≠ "")) := by
  have key : controller.ValidateOptions goos (controller.SanitizeOptions raw) = none
      → raw.Silent = true
      → ¬ (raw.WriteCSVFilePath = "" ∧ raw.WriteGPSCoordsFilePath = ""
          ∧ raw.WriteKMLFilePath = "" ∧ raw.WriteNMEAFilePath = "") := by
    intro hv hs hw
    rw [controller.ValidateOptions_eq_none_iff, controller.SanitizeOptions_eq] at hv
    obtain ⟨-, -, -, -, h5, -, -⟩ := hv
    apply h5
    refine ⟨hs, ?_⟩
    by_cases hn : raw.PrintNMEAToCLI = true
    · exact Or.inl hn
    · right
      cases hg : raw.PrintGPSCoordsToCLI
      · have hn' : raw.PrintNMEAToCLI = false := by simpa using hn
        simp [hg, hn', hw.1, hw.2.1, hw.2.2.1, hw.2.2.2]
      · simp [hg]
  constructor
  · rintro ⟨hs, hw⟩
    apply controller.exists_error_of_ne_none
    intro hv
    exact key hv hs hw
  · intro hv hs
    rw [controller.SanitizeOptions_eq] at hs ⊢
    have hw := key hv hs
    simp only [not_and_or] at hw
    exact hw

/-- C18: a raw configuration in which exactly one of `BaudRate` and `SerialPort` is
greater than -1 is rejected by `SanitizeOptions` followed by `ValidateOptions` on every
platform, whatever the incoming `AutoDetect`. -/
theorem controller.partial_manual_rejected (goos : String) (raw : controller.Options)
    (h : Xor' (raw.BaudRate > -1) (raw.SerialPort > -1)) :
    ∃ msg, controller.ValidateOptions goos (controller.SanitizeOptions raw) = some msg := by
  apply controller.exists_error_of_ne_none
  intro hv
  rw [controller.ValidateOptions_eq_none_iff] at hv
  obtain ⟨-, h2, h3, -⟩ := hv
  have ha : (controller.SanitizeOptions raw).AutoDetect = false := by
    rw [controller.SanitizeOptions_AutoDetect]
    split_ifs with h1
    · rfl
    · cases hr : raw.AutoDetect
      · rfl
      · exfalso
        apply h1
        refine ⟨hr, ?_⟩
        rcases h with ⟨hb, -⟩ | ⟨hp, -⟩
        · exact Or.inl hb
        · exact Or.inr hp
  rw [controller.SanitizeOptions_SerialPort] at h2
  rw [controller.SanitizeOptions_BaudRate] at h3
  have hp : ¬ raw.SerialPort < 0 := fun hc => h2 ⟨ha, hc⟩
  have hb : ¬ raw.BaudRate ≤ 0 := fun hc => h3 ⟨ha, hc⟩
  rcases h with ⟨-, hn⟩ | ⟨-, hn⟩ <;> omega

/-- Witness for C18: port 3 alone is rejected on Linux, with the manual-baud reason. -/
theorem controller.partial_manual_rejected_witness :
    Xor' ((-1 : Int) > -1) ((3 : Int) > -1)
    ∧ ∃ msg, controller.ValidateOptions "linux" (controller.SanitizeOptions
        { controller.defaultOptions with SerialPort := 3 }) = some msg :=
  ⟨Or.inr ⟨by decide, by decide⟩,
   controller.partial_manual_rejected "linux"
     { controller.defaultOptions with SerialPort := 3 } (Or.inr ⟨by decide, by decide⟩)⟩

/-- C19: the configuration of the flag defaults is accepted on every platform by
`SanitizeOptions` followed by `ValidateOptions`; the final configuration has
`AutoDetect` and `PrintGPSCoordsToCLI` set and every other field at its default. -/
theorem controller.defaults_accepted (goos : String) :
    controller.ValidateOptions goos (controller.SanitizeOptions controller.defaultOptions)
      = none
    ∧ controller.SanitizeOptions controller.defaultOptions
      = { controller.defaultOptions with PrintGPSCoordsToCLI := true }
    ∧ (controller.SanitizeOptions controller.defaultOptions).AutoDetect = true
    ∧ (controller.SanitizeOptions controller.defaultOptions).PrintGPSCoordsToCLI = true := by
  have hs : controller.SanitizeOptions controller.defaultOptions
      = { controller.defaultOptions with PrintGPSCoordsToCLI := true } := by
    decide
  refine ⟨?_, hs, by decide, by decide⟩
  rw [hs]
  simp [controller.ValidateOptions, controller.defaultOptions]

/-! ## Outputs in cmd/app -/

/-- C13 (as stated, refuted): the configuration of the flag defaults is produced by
`parseOptions` and accepted by `checkOptionSanity` on Linux with no CLI-print flag set
and the four write paths empty. -/
theorem app.defaults_accepted_without_output :
    app.checkOptionSanity "linux" (app.parseOptions app.defaultOptions) = none
    ∧ ¬ app.hasEffectiveOutput (app.parseOptions app.defaultOptions) := by
  refine ⟨by decide, ?_⟩
  unfold app.hasEffectiveOutput
  decide

/-- C13 (amended): `parseOptions` selects no default output. A configuration it
produces has an effective output active exactly when the parsed flags already had one,
and on every platform the flag defaults are accepted by `checkOptionSanity` with none
active. -/
theorem app.parseOptions_effective_output (goos : String) (o : app.Options) :
    (app.hasEffectiveOutput (app.parseOptions o) ↔ app.hasEffectiveOutput o)
    ∧ (app.checkOptionSanity goos (app.parseOptions app.defaultOptions) = none
        ∧ ¬ app.hasEffectiveOutput (app.parseOptions app.defaultOptions)) := by
  refine ⟨?_, ?_, ?_⟩
  · unfold app.parseOptions app.hasEffectiveOutput
    split_ifs <;> rfl
  · have hp : app.parseOptions app.defaultOptions = app.defaultOptions := by decide
    rw [hp]
    simp [app.checkOptionSanity, app.defaultOptions]
  · unfold app.hasEffectiveOutput
    decide
